import Mathlib

/-!
Verification development for the cc-hub interactive 3D storytelling app.

The embedding below is a shallow translation of the TypeScript sources:
* the playback state machine of the main `App` component
  (state `currentChapterIndex`, `currentBeatIndex`, `isPlaying`, `progress`,
  the 50ms auto-advance interval callback, and the handlers
  `goNext`, `goPrev`, `restart`, `togglePlay`, `goToChapter`,
  the `ChapterTimeline.onSelectBeat` and `StoryPanel.onBeatSelect` callbacks);
* the content model `ALL_CHAPTERS` of `src/content/story.ts`
  (beat ids and durations; narrative text fields are omitted since no
  playback or camera behavior reads them);
* the camera preset/position/height tables and lookups of `src/lib/camera.ts`;
* the per-frame camera interpolation of
  `src/components/camera/CameraController.tsx`.

JavaScript numbers are modelled as exact rationals (`ℚ`); `THREE.Vector3`
as a record of three rationals.  `Vector3.distanceTo(v) < 0.1` is modelled
by the equivalent squared-distance comparison `distSq < 1/100` (both sides
of the original comparison are nonnegative, so squaring is faithful and
avoids the irrational square root).
-/

namespace CcHub

/-- A story beat (`StoryBeat` in `src/content/story.ts`).  Only the fields
that playback logic reads are kept: the identifier and the display
duration in milliseconds. -/
structure StoryBeat where
  id : String
  duration : ℚ
  deriving Repr, DecidableEq

/-- A chapter: an ordered list of beats (`Chapter` in `src/content/story.ts`). -/
structure Chapter where
  id : String
  beats : List StoryBeat
  deriving Repr, DecidableEq

/-- `CHAPTER_AGENT` from `src/content/story.ts`. -/
def CHAPTER_AGENT : Chapter :=
  ⟨"agent",
   [⟨"what-is-agentic", 60000⟩, ⟨"the-loop", 60000⟩,
    ⟨"model-is-80", 60000⟩, ⟨"model-selection", 60000⟩]⟩

/-- `CHAPTER_CONTEXT` from `src/content/story.ts`. -/
def CHAPTER_CONTEXT : Chapter :=
  ⟨"context",
   [⟨"what-claude-sees", 60000⟩, ⟨"context-degrades", 60000⟩,
    ⟨"claudemd-memory", 60000⟩, ⟨"clear-and-compact", 60000⟩]⟩

/-- `CHAPTER_TOOLS` from `src/content/story.ts`. -/
def CHAPTER_TOOLS : Chapter :=
  ⟨"tools",
   [⟨"tools-overview", 60000⟩, ⟨"read-tool", 60000⟩,
    ⟨"edit-write-tools", 60000⟩, ⟨"bash-tool", 60000⟩,
    ⟨"search-tools", 60000⟩, ⟨"task-tool", 60000⟩]⟩

/-- `CHAPTER_PROMPTING` from `src/content/story.ts`. -/
def CHAPTER_PROMPTING : Chapter :=
  ⟨"prompting",
   [⟨"think-first", 60000⟩, ⟨"be-specific", 60000⟩,
    ⟨"tell-not-to", 60000⟩, ⟨"give-context", 60000⟩, ⟨"iterate", 60000⟩]⟩

/-- `CHAPTER_SKILLS` from `src/content/story.ts`. -/
def CHAPTER_SKILLS : Chapter :=
  ⟨"skills",
   [⟨"what-are-skills", 60000⟩, ⟨"skill-structure", 60000⟩,
    ⟨"progressive-disclosure", 60000⟩, ⟨"skill-examples", 60000⟩,
    ⟨"skill-triggers", 60000⟩]⟩

/-- `CHAPTER_SUBAGENTS` from `src/content/story.ts`. -/
def CHAPTER_SUBAGENTS : Chapter :=
  ⟨"subagents",
   [⟨"what-are-subagents", 60000⟩, ⟨"builtin-spirits", 60000⟩,
    ⟨"delegation-pattern", 60000⟩, ⟨"context-isolation", 60000⟩,
    ⟨"custom-familiars", 60000⟩, ⟨"subagent-patterns", 60000⟩]⟩

/-- `CHAPTER_MCP` from `src/content/story.ts`. -/
def CHAPTER_MCP : Chapter :=
  ⟨"mcp",
   [⟨"what-is-mcp", 60000⟩, ⟨"connecting-services", 60000⟩,
    ⟨"portal-examples", 60000⟩, ⟨"chain-workflows", 60000⟩,
    ⟨"mcp-safety", 60000⟩, ⟨"compound-effect", 60000⟩]⟩

/-- `CHAPTER_TROUBLESHOOTING` from `src/content/story.ts`. -/
def CHAPTER_TROUBLESHOOTING : Chapter :=
  ⟨"troubleshooting",
   [⟨"breaking-loops", 60000⟩, ⟨"reframing", 60000⟩,
    ⟨"input-quality", 60000⟩, ⟨"escape-hatches", 60000⟩,
    ⟨"conclusion", 60000⟩]⟩

/-- `ALL_CHAPTERS` from `src/content/story.ts`: the fixed ordered list of
the eight chapters. -/
def ALL_CHAPTERS : List Chapter :=
  [CHAPTER_AGENT, CHAPTER_CONTEXT, CHAPTER_TOOLS, CHAPTER_PROMPTING,
   CHAPTER_SKILLS, CHAPTER_SUBAGENTS, CHAPTER_MCP, CHAPTER_TROUBLESHOOTING]

/-- The chapter at a given index (`ALL_CHAPTERS[i]` in the source; the
default is irrelevant: every access in the app happens at a valid index). -/
def chapterAt (i : Nat) : Chapter :=
  ALL_CHAPTERS.getD i ⟨"", []⟩

/-- The beat at a given chapter/beat index pair
(`ALL_CHAPTERS[ci].beats[bi]` in the source). -/
def beatAt (ci bi : Nat) : StoryBeat :=
  (chapterAt ci).beats.getD bi ⟨"", 0⟩

/-- The mutable playback state owned by the `App` component:
`currentChapterIndex`, `currentBeatIndex`, `isPlaying`, `progress`. -/
structure PlaybackState where
  currentChapterIndex : Nat
  currentBeatIndex : Nat
  isPlaying : Bool
  progress : ℚ
  deriving Repr, DecidableEq

/-- The initial state: `useState(0)`, `useState(0)`, `useState(true)`,
`useState(0)` in `App`. -/
def initialState : PlaybackState := ⟨0, 0, true, 0⟩

/-- Valid index pair into the content model:
`ci < ALL_CHAPTERS.length` and `bi < ALL_CHAPTERS[ci].beats.length`. -/
def validPos (ci bi : Nat) : Prop :=
  ci < ALL_CHAPTERS.length ∧ bi < (chapterAt ci).beats.length

instance (ci bi : Nat) : Decidable (validPos ci bi) := by
  unfold validPos; infer_instance

/-- One firing of the 50ms `setInterval` callback of the auto-advance
effect in `App`.  When `isPlaying` is false the effect returns before
scheduling the timer, so no state change occurs; otherwise the callback
computes `increment = (interval / duration) * 100` with `interval = 50`
and either advances the beat/chapter indices (resetting progress to 0,
wrapping to chapter 0 beat 0 at the very end) when the previous progress
is already `>= 100`, or adds the increment. -/
def tick (s : PlaybackState) : PlaybackState :=
  if s.isPlaying = false then s
  else
    let duration := (beatAt s.currentChapterIndex s.currentBeatIndex).duration
    let increment := (50 / duration) * 100
    if s.progress ≥ 100 then
      if s.currentBeatIndex < (chapterAt s.currentChapterIndex).beats.length - 1 then
        { s with currentBeatIndex := s.currentBeatIndex + 1, progress := 0 }
      else if s.currentChapterIndex < ALL_CHAPTERS.length - 1 then
        { s with currentChapterIndex := s.currentChapterIndex + 1,
                 currentBeatIndex := 0, progress := 0 }
      else
        { s with currentChapterIndex := 0, currentBeatIndex := 0, progress := 0 }
    else { s with progress := s.progress + increment }

/-- The `goNext` callback of `App`: advance within the chapter, else to the
next chapter's first beat, else leave the indices alone; `setProgress(0)`
runs unconditionally. -/
def goNext (s : PlaybackState) : PlaybackState :=
  if s.currentBeatIndex < (chapterAt s.currentChapterIndex).beats.length - 1 then
    { s with currentBeatIndex := s.currentBeatIndex + 1, progress := 0 }
  else if s.currentChapterIndex < ALL_CHAPTERS.length - 1 then
    { s with currentChapterIndex := s.currentChapterIndex + 1,
             currentBeatIndex := 0, progress := 0 }
  else
    { s with progress := 0 }

/-- The `goPrev` callback of `App`: step back within the chapter, else to
the last beat of the previous chapter, else leave the indices alone;
`setProgress(0)` runs unconditionally. -/
def goPrev (s : PlaybackState) : PlaybackState :=
  if s.currentBeatIndex > 0 then
    { s with currentBeatIndex := s.currentBeatIndex - 1, progress := 0 }
  else if s.currentChapterIndex > 0 then
    { s with currentChapterIndex := s.currentChapterIndex - 1,
             currentBeatIndex := (chapterAt (s.currentChapterIndex - 1)).beats.length - 1,
             progress := 0 }
  else
    { s with progress := 0 }

/-- The `restart` callback of `App`. -/
def restart (_s : PlaybackState) : PlaybackState := ⟨0, 0, true, 0⟩

/-- The `togglePlay` callback of `App`. -/
def togglePlay (s : PlaybackState) : PlaybackState :=
  { s with isPlaying := !s.isPlaying }

/-- The `goToChapter` callback of `App` (used by `ChapterTimeline.onSelectChapter`). -/
def goToChapter (chapterIndex : Nat) (s : PlaybackState) : PlaybackState :=
  { s with currentChapterIndex := chapterIndex, currentBeatIndex := 0, progress := 0 }

/-- The `ChapterTimeline.onSelectBeat` callback in `App`: set both indices
and reset progress. -/
def selectBeat (chapterIndex beatIndex : Nat) (s : PlaybackState) : PlaybackState :=
  { s with currentChapterIndex := chapterIndex, currentBeatIndex := beatIndex,
           progress := 0 }

/-- The `StoryPanel.onBeatSelect` callback in `App`: set the beat index
within the current chapter and reset progress. -/
def selectBeatInChapter (beatIndex : Nat) (s : PlaybackState) : PlaybackState :=
  { s with currentBeatIndex := beatIndex, progress := 0 }

/-! ## Camera: vectors, preset tables, lookups (`src/lib/camera.ts`) -/

/-- `THREE.Vector3` with exact rational coordinates. -/
structure Vec3 where
  x : ℚ
  y : ℚ
  z : ℚ
  deriving Repr, DecidableEq

/-- `Vector3.lerp(v, alpha)`: each coordinate moves by `(v - this) * alpha`.
`Vector3.lerpVectors(v1, v2, alpha)` computes the same expression with
`this = v1`. -/
def Vec3.lerp (a b : Vec3) (alpha : ℚ) : Vec3 :=
  ⟨a.x + (b.x - a.x) * alpha, a.y + (b.y - a.y) * alpha, a.z + (b.z - a.z) * alpha⟩

/-- Squared distance between two vectors.  `Vector3.distanceTo a b < c`
with `c ≥ 0` is equivalent to `distSq a b < c ^ 2`. -/
def distSq (a b : Vec3) : ℚ :=
  (a.x - b.x) ^ 2 + (a.y - b.y) ^ 2 + (a.z - b.z) ^ 2

/-- `CameraPreset` from `src/lib/camera.ts`. -/
structure CameraPreset where
  position : Vec3
  target : Vec3
  fov : Option ℚ
  deriving Repr, DecidableEq

/-- `MONITOR_CENTER` from `src/lib/camera.ts`: `[0, 1.1, -0.5]`. -/
def MONITOR_CENTER : Vec3 := ⟨0, 11/10, -1/2⟩

/-- The `default` entry of `CAMERA_PRESETS`. -/
def defaultPreset : CameraPreset := ⟨⟨0, 13/10, 5/2⟩, MONITOR_CENTER, some 45⟩

/-- `CAMERA_PRESETS` from `src/lib/camera.ts`, as an association list in
source order. -/
def CAMERA_PRESETS : List (String × CameraPreset) :=
  [("default", defaultPreset),
   ("center", ⟨⟨0, 13/10, 5/2⟩, MONITOR_CENTER, some 45⟩),
   ("hourglass", ⟨⟨0, 13/10, 5/2⟩, MONITOR_CENTER, some 45⟩),
   ("reservoir", ⟨⟨0, 12/10, 2⟩, MONITOR_CENTER, some 45⟩),
   ("grimoire", ⟨⟨0, 12/10, 18/10⟩, MONITOR_CENTER, some 45⟩),
   ("artifacts", ⟨⟨12/10, 13/10, 23/10⟩, MONITOR_CENTER, some 45⟩),
   ("portal", ⟨⟨-12/10, 13/10, 23/10⟩, MONITOR_CENTER, some 45⟩),
   ("wands", ⟨⟨8/10, 12/10, 22/10⟩, MONITOR_CENTER, some 45⟩),
   ("summoning", ⟨⟨15/10, 15/10, 25/10⟩, MONITOR_CENTER, some 48⟩),
   ("condenser", ⟨⟨0, 14/10, 28/10⟩, MONITOR_CENTER, some 45⟩),
   ("circle", ⟨⟨0, 13/10, 5/2⟩, MONITOR_CENTER, some 45⟩),
   ("triad", ⟨⟨0, 15/10, 3⟩, MONITOR_CENTER, some 45⟩),
   ("wide", ⟨⟨0, 2, 4⟩, ⟨0, 8/10, 0⟩, some 40⟩),
   ("dramatic", ⟨⟨2, 18/10, 25/10⟩, MONITOR_CENTER, some 50⟩),
   ("aerial", ⟨⟨0, 4, 2⟩, ⟨0, 1/2, 0⟩, some 45⟩),
   ("closeup", ⟨⟨0, 12/10, 15/10⟩, ⟨0, 115/100, -1/2⟩, some 45⟩)]

/-- `getCameraPreset` from `src/lib/camera.ts`:
`CAMERA_PRESETS[target] || CAMERA_PRESETS.default`.  Preset records are
always truthy in JavaScript, so `||` fires exactly on a lookup miss. -/
def getCameraPreset (target : String) : CameraPreset :=
  (CAMERA_PRESETS.lookup target).getD defaultPreset

/-- `TARGET_POSITIONS` from `src/lib/camera.ts`: `[x, y, z]` triples. -/
def TARGET_POSITIONS : List (String × Vec3) :=
  [("center", ⟨0, 0, 0⟩), ("reservoir", ⟨0, 0, 0⟩), ("artifacts", ⟨0, 0, 0⟩),
   ("grimoire", ⟨0, 0, 0⟩), ("portal", ⟨0, 0, 0⟩), ("wands", ⟨0, 0, 0⟩),
   ("summoning", ⟨0, 0, 0⟩), ("condenser", ⟨0, 0, 0⟩), ("circle", ⟨0, 0, 0⟩),
   ("triad", ⟨0, 0, 0⟩)]

/-- `OBJECT_HEIGHTS` from `src/lib/camera.ts`. -/
def OBJECT_HEIGHTS : List (String × ℚ) :=
  [("center", 1), ("hourglass", 1), ("reservoir", 9/10), ("artifacts", 14/10),
   ("grimoire", 1), ("portal", 15/10), ("wands", 13/10), ("summoning", 6/10),
   ("condenser", 9/10), ("circle", 3/10), ("triad", 3/10)]

/-- `getHighlightPosition` from `src/lib/camera.ts`: `undefined` input gives
`null`; `'hourglass'` is mapped to `'center'`; a `TARGET_POSITIONS` miss
gives `null`; otherwise `[pos[0], height, pos[2]]` with
`height = OBJECT_HEIGHTS[target] || 1.0` (every stored height is nonzero,
so `||` fires exactly on a lookup miss). -/
def getHighlightPosition (highlight : Option String) : Option Vec3 :=
  match highlight with
  | none => none
  | some hl =>
    let target := if hl = "hourglass" then "center" else hl
    match TARGET_POSITIONS.lookup target with
    | none => none
    | some pos =>
      let height := (OBJECT_HEIGHTS.lookup target).getD 1
      some ⟨pos.x, height, pos.z⟩

/-! ## Camera per-frame interpolation (`CameraController.tsx`) -/

/-- The mutable refs of `CameraController` that the `useFrame` callback
reads and writes: `currentTarget`, `desiredTarget`, `currentWizardPos`,
`isTransitioning`, plus a count of `onTransitionComplete` invocations. -/
structure CamState where
  currentTarget : Vec3
  desiredTarget : Vec3
  currentWizardPos : Vec3
  isTransitioning : Bool
  fired : Nat
  deriving Repr, DecidableEq

/-- One `useFrame` tick of `CameraController`: update the smoothed wizard
position (when a wizard position is supplied), compute the framing target
(the desired target alone, or the 60/40 blend toward it from the smoothed
wizard position with `y` raised to at least 0.8), lerp `currentTarget`
toward it at full `transitionSpeed` while transitioning and at 30% of it
otherwise, and — while transitioning — complete the transition and fire
`onTransitionComplete` once the distance drops below 0.1
(`distSq < (1/10)^2`). -/
def frameStep (transitionSpeed : ℚ) (wizardPosition : Option Vec3)
    (st : CamState) : CamState :=
  let wiz :=
    match wizardPosition with
    | none => st.currentWizardPos
    | some w => st.currentWizardPos.lerp w (transitionSpeed * 2)
  let framingTarget :=
    match wizardPosition with
    | none => st.desiredTarget
    | some _ =>
      let f := Vec3.lerp wiz st.desiredTarget (6/10)
      ⟨f.x, max f.y (8/10), f.z⟩
  let lerpSpeed := if st.isTransitioning then transitionSpeed else transitionSpeed * (3/10)
  let cur := st.currentTarget.lerp framingTarget lerpSpeed
  if st.isTransitioning ∧ distSq cur framingTarget < (1/10) ^ 2 then
    { st with currentTarget := cur, currentWizardPos := wiz,
              isTransitioning := false, fired := st.fired + 1 }
  else
    { st with currentTarget := cur, currentWizardPos := wiz }

/-- The `useEffect` of `CameraController` that reacts to a `target` prop
change: look up the preset (falling back to `default`), set
`desiredTarget` to its look-at point and mark the transition active. -/
def onTargetChange (target : String) (st : CamState) : CamState :=
  { st with desiredTarget := (getCameraPreset target).target, isTransitioning := true }

/-- A playback state whose indices are valid for the content model. -/
def validState (s : PlaybackState) : Prop :=
  validPos s.currentChapterIndex s.currentBeatIndex

instance (s : PlaybackState) : Decidable (validState s) := by
  unfold validState; infer_instance

/-- One application of any playback operation of `App`, with the caller
contracts of the jump operations (their arguments come from the content
model, hence are in range). -/
def PStep (s t : PlaybackState) : Prop :=
  t = tick s ∨ t = goNext s ∨ t = goPrev s ∨ t = restart s ∨ t = togglePlay s ∨
  (∃ i, i < ALL_CHAPTERS.length ∧ t = goToChapter i s) ∨
  (∃ ci bi, validPos ci bi ∧ t = selectBeat ci bi s) ∨
  (∃ bi, bi < (chapterAt s.currentChapterIndex).beats.length ∧
    t = selectBeatInChapter bi s)

/-- Every chapter of the content model has at least one beat. -/
lemma chapter_nonempty : ∀ ci, ci < ALL_CHAPTERS.length →
    0 < (chapterAt ci).beats.length := by decide

/-- Every beat of the content model has duration 60000 ms. -/
lemma duration_all : ∀ ci, ci < ALL_CHAPTERS.length →
    ∀ bi, bi < (chapterAt ci).beats.length →
      (beatAt ci bi).duration = 60000 := by decide

lemma tick_valid {s : PlaybackState} (h : validState s) : validState (tick s) := by
  obtain ⟨h1, h2⟩ := h
  have h8 : ALL_CHAPTERS.length = 8 := rfl
  unfold tick
  split_ifs with hpl hp hb hc
  · exact ⟨h1, h2⟩
  · exact ⟨h1, by simp only; omega⟩
  · refine ⟨by simp only; omega, ?_⟩
    simp only
    exact chapter_nonempty _ (by omega)
  · exact ⟨by simp only; omega, by simp only; exact chapter_nonempty 0 (by omega)⟩
  · exact ⟨h1, h2⟩

lemma goNext_valid {s : PlaybackState} (h : validState s) : validState (goNext s) := by
  obtain ⟨h1, h2⟩ := h
  unfold goNext
  split_ifs with hb hc
  · exact ⟨h1, by simp only; omega⟩
  · refine ⟨by simp only; omega, ?_⟩
    simp only
    exact chapter_nonempty _ (by omega)
  · exact ⟨h1, h2⟩

lemma goPrev_valid {s : PlaybackState} (h : validState s) : validState (goPrev s) := by
  obtain ⟨h1, h2⟩ := h
  unfold goPrev
  split_ifs with hb hc
  · exact ⟨h1, by simp only; omega⟩
  · have hne : 0 < (chapterAt (s.currentChapterIndex - 1)).beats.length :=
      chapter_nonempty _ (by omega)
    exact ⟨by simp only; omega, by simp only; omega⟩
  · exact ⟨h1, h2⟩

/-- C5: the index-bounds invariant holds initially and is preserved by
every playback operation (with valid arguments to the jump operations). -/
theorem c5_bounds_invariant :
    validState initialState ∧
    ∀ s t, validState s → PStep s t → validState t := by
  refine ⟨by decide, ?_⟩
  rintro s t hs (rfl | rfl | rfl | rfl | rfl | ⟨i, hi, rfl⟩ | ⟨ci, bi, hv, rfl⟩ |
    ⟨bi, hb, rfl⟩)
  · exact tick_valid hs
  · exact goNext_valid hs
  · exact goPrev_valid hs
  · have hv0 : validState (⟨0, 0, true, 0⟩ : PlaybackState) := by decide
    exact hv0
  · exact hs
  · exact ⟨hi, chapter_nonempty i hi⟩
  · exact hv
  · exact ⟨hs.1, hb⟩

/-- Witness for C5: the invariant survives a tick from the initial state. -/
theorem c5_witness : validState (tick initialState) :=
  c5_bounds_invariant.2 initialState (tick initialState) (by decide) (Or.inl rfl)

/-- Iterating the auto-advance tick from a fresh beat: during the first
1200 ticks the indices do not move and progress climbs in exact steps of
`1/12` percent. -/
lemma tick_iterate (ci bi : Nat) (h : validPos ci bi) :
    ∀ k, k ≤ 1200 → tick^[k] ⟨ci, bi, true, 0⟩ = ⟨ci, bi, true, (k : ℚ) / 12⟩ := by
  intro k
  induction k with
  | zero => intro _; norm_num
  | succ n ih =>
    intro hn
    rw [Function.iterate_succ_apply', ih (by omega)]
    have hd : (beatAt ci bi).duration = 60000 := duration_all ci h.1 bi h.2
    have hlt : ((n : ℚ) / 12) < 100 := by
      rw [div_lt_iff₀ (by norm_num)]
      exact_mod_cast (by omega : n < 1200)
    have harith : ((n : ℚ)) / 12 + 50 / 60000 * 100 = ((n : ℚ) + 1) / 12 := by
      ring
    simp [tick, hd, hlt.not_le, harith]

/-! ## Theorems -/

/-- C9: the camera preset lookup is a total function (it never throws):
on a name absent from `CAMERA_PRESETS` it returns the `default` preset,
and on a present name it returns that entry. -/
theorem c9_getCameraPreset_fallback (targetName : String) :
    (CAMERA_PRESETS.lookup targetName = none →
      getCameraPreset targetName = defaultPreset) ∧
    (∀ p, CAMERA_PRESETS.lookup targetName = some p →
      getCameraPreset targetName = p) := by
  constructor
  · intro h
    simp [getCameraPreset, h]
  · intro p h
    simp [getCameraPreset, h]

/-- Witness for C9 at the absent name `"no-such-preset"` and the present
name `"portal"`. -/
theorem c9_witness :
    getCameraPreset "no-such-preset" = defaultPreset ∧
    getCameraPreset "portal" =
      ⟨⟨-12/10, 13/10, 23/10⟩, MONITOR_CENTER, some 45⟩ :=
  ⟨(c9_getCameraPreset_fallback "no-such-preset").1 rfl,
   (c9_getCameraPreset_fallback "portal").2 _ rfl⟩

/-- C10: `getHighlightPosition` returns `none` on an `undefined` input;
after mapping `'hourglass'` to `'center'` it returns `none` exactly when
the mapped name is absent from `TARGET_POSITIONS` (no default fallback,
unlike `getCameraPreset`), and otherwise `[x, height, z]` with `(x, z)`
from the position entry and `height` from `OBJECT_HEIGHTS` with fallback
`1.0`. -/
theorem c10_getHighlightPosition_cases :
    (getHighlightPosition none = none) ∧
    (∀ hl : String,
      (TARGET_POSITIONS.lookup (if hl = "hourglass" then "center" else hl) = none →
        getHighlightPosition (some hl) = none) ∧
      (∀ pos, TARGET_POSITIONS.lookup (if hl = "hourglass" then "center" else hl) = some pos →
        getHighlightPosition (some hl) =
          some ⟨pos.x,
                (OBJECT_HEIGHTS.lookup
                  (if hl = "hourglass" then "center" else hl)).getD 1,
                pos.z⟩)) ∧
    (getCameraPreset "unknown-name" = defaultPreset ∧
      getHighlightPosition (some "unknown-name") = none) := by
  refine ⟨rfl, ?_, rfl, rfl⟩
  intro hl
  constructor
  · intro h
    simp [getHighlightPosition, h]
  · intro pos h
    simp [getHighlightPosition, h]

/-- Witness for C10 at the mapped name `"hourglass"` (present as
`"center"`), the present name `"triad"` and the absent name `"monitor"`. -/
theorem c10_witness :
    getHighlightPosition (some "hourglass") = some ⟨0, 1, 0⟩ ∧
    getHighlightPosition (some "triad") = some ⟨0, 3/10, 0⟩ ∧
    getHighlightPosition (some "monitor") = none := by
  refine ⟨?_, ?_, ?_⟩
  · exact ((c10_getHighlightPosition_cases.2.1 "hourglass").2 ⟨0, 0, 0⟩ rfl).trans rfl
  · exact ((c10_getHighlightPosition_cases.2.1 "triad").2 ⟨0, 0, 0⟩ rfl).trans rfl
  · exact (c10_getHighlightPosition_cases.2.1 "monitor").1 rfl

/-- C6: `togglePlay` twice is the identity on the whole state; any
sequence of `togglePlay` calls leaves `progress` unchanged; and the
auto-advance tick is inert while `isPlaying` is false (the effect returns
before scheduling the interval). -/
theorem c6_togglePlay_pause (s : PlaybackState) :
    togglePlay (togglePlay s) = s ∧
    (∀ n : Nat, (togglePlay^[n] s).progress = s.progress) ∧
    (s.isPlaying = false → tick s = s) := by
  refine ⟨?_, ?_, ?_⟩
  · simp [togglePlay]
  · intro n
    induction n with
    | zero => simp
    | succ k ih =>
      rw [Function.iterate_succ_apply']
      simpa [togglePlay] using ih
  · intro h
    simp [tick, h]

/-- Witness for C6 at a concrete paused state. -/
theorem c6_witness :
    tick ⟨2, 1, false, 5⟩ = ⟨2, 1, false, 5⟩ ∧
    togglePlay (togglePlay ⟨2, 1, false, 5⟩) = ⟨2, 1, false, 5⟩ :=
  ⟨(c6_togglePlay_pause ⟨2, 1, false, 5⟩).2.2 rfl,
   (c6_togglePlay_pause ⟨2, 1, false, 5⟩).1⟩

/-- Counterexample for C1: at the last beat of the last chapter with
progress 50, manual `goNext` is not a no-op on the whole playback state —
it resets progress to 0. -/
theorem c1_counterexample :
    goNext ⟨7, 4, true, 50⟩ ≠ ⟨7, 4, true, 50⟩ := by decide

/-- C1 (amended): at the last beat of the last chapter, manual `goNext`
keeps the indices and the play flag but resets progress to 0, while the
automatic timeout-driven advance (a tick with `isPlaying` and progress
`≥ 100`) wraps to chapter 0, beat 0; the two successor states always
differ in their beat position. -/
theorem c1_manual_vs_auto (pl : Bool) (p : ℚ) (hp : 100 ≤ p) :
    goNext ⟨7, 4, pl, p⟩ = ⟨7, 4, pl, 0⟩ ∧
    tick ⟨7, 4, true, p⟩ = ⟨0, 0, true, 0⟩ ∧
    (goNext ⟨7, 4, pl, p⟩).currentChapterIndex ≠
      (tick ⟨7, 4, true, p⟩).currentChapterIndex := by
  have e1 : goNext ⟨7, 4, pl, p⟩ = ⟨7, 4, pl, 0⟩ := by
    simp [goNext, chapterAt, ALL_CHAPTERS, CHAPTER_TROUBLESHOOTING]
  have e2 : tick ⟨7, 4, true, p⟩ = ⟨0, 0, true, 0⟩ := by
    simp [tick, ge_iff_le, hp, chapterAt, ALL_CHAPTERS, CHAPTER_TROUBLESHOOTING]
  exact ⟨e1, e2, by rw [e1, e2]; simp⟩

/-- Witness for C1 at progress exactly 100. -/
theorem c1_witness :
    goNext ⟨7, 4, true, 100⟩ = ⟨7, 4, true, 0⟩ ∧
    tick ⟨7, 4, true, 100⟩ = ⟨0, 0, true, 0⟩ :=
  ⟨(c1_manual_vs_auto true 100 le_rfl).1, (c1_manual_vs_auto true 100 le_rfl).2.1⟩

/-- Counterexample for C3: the last beat of the last chapter is a valid
position, yet `goNext` followed by `goPrev` lands on beat 3 instead of
returning to beat 4. -/
theorem c3_counterexample :
    validPos 7 4 ∧
    goPrev (goNext ⟨7, 4, true, 0⟩) = ⟨7, 3, true, 0⟩ ∧
    goPrev (goNext ⟨7, 4, true, 0⟩) ≠ ⟨7, 4, true, 0⟩ := by
  refine ⟨by decide, by decide, by decide⟩

/-- C3 (amended): for every valid position except the last beat of the
last chapter, `goNext` followed by `goPrev` restores the original indices
(with progress reset to 0); at the very first position `goPrev` keeps the
indices unchanged. -/
theorem c3_next_prev_roundtrip (pl : Bool) (p : ℚ) (ci bi : Nat)
    (h : validPos ci bi) (hterm : ¬(ci = 7 ∧ bi = 4)) :
    goPrev (goNext ⟨ci, bi, pl, p⟩) = ⟨ci, bi, pl, 0⟩ ∧
    (goPrev ⟨0, 0, pl, p⟩).currentChapterIndex = 0 ∧
    (goPrev ⟨0, 0, pl, p⟩).currentBeatIndex = 0 := by
  obtain ⟨hci, hbi⟩ := h
  have hci8 : ci < 8 := hci
  refine ⟨?_, by simp [goPrev], by simp [goPrev]⟩
  by_cases h1 : bi < (chapterAt ci).beats.length - 1
  · simp [goNext, goPrev, h1]
  · by_cases h2 : ci < ALL_CHAPTERS.length - 1
    · have hbi' : bi = (chapterAt ci).beats.length - 1 := by omega
      simp [goNext, goPrev, h1, h2, hbi']
    · exfalso
      have hc7 : ci = 7 := by
        have h8 : ALL_CHAPTERS.length = 8 := rfl
        omega
      have hl : (chapterAt 7).beats.length = 5 := rfl
      exact hterm ⟨hc7, by subst hc7; omega⟩

/-- Witness for C3 at the chapter-boundary position (0, 3). -/
theorem c3_witness :
    validPos 0 3 ∧
    goPrev (goNext ⟨0, 3, true, 7⟩) = ⟨0, 3, true, 0⟩ :=
  ⟨by decide, (c3_next_prev_roundtrip true 7 0 3 (by decide) (by decide)).1⟩

/-- Counterexample for C2: ticking from a fresh beat until the total
elapsed time (50 ms × 1200 ticks) equals the beat's 60000 ms duration
causes no beat advance at all — progress sits at 100 with the indices
unmoved.  The advance only happens on the *next* tick. -/
theorem c2_counterexample :
    (beatAt 0 0).duration ≤ 50 * 1200 ∧
    tick^[1200] ⟨0, 0, true, 0⟩ = ⟨0, 0, true, 100⟩ := by
  constructor
  · norm_num [beatAt, chapterAt, ALL_CHAPTERS, CHAPTER_AGENT]
  · rw [tick_iterate 0 0 (by decide) 1200 le_rfl]
    norm_num

/-- C2 (amended): from a fresh beat, the first 1200 ticks (elapsed time
equal to the beat's 60000 ms duration) perform no advance and leave
progress saturated at exactly 100; the 1201st tick — the first one after
the elapsed time exceeds the duration — performs exactly one beat advance
and resets progress to 0 atomically in that same tick. -/
theorem c2_single_advance (ci bi : Nat) (h : validPos ci bi) :
    tick^[1200] ⟨ci, bi, true, 0⟩ = ⟨ci, bi, true, 100⟩ ∧
    tick^[1201] ⟨ci, bi, true, 0⟩ =
      (if bi < (chapterAt ci).beats.length - 1 then ⟨ci, bi + 1, true, 0⟩
       else if ci < ALL_CHAPTERS.length - 1 then ⟨ci + 1, 0, true, 0⟩
       else ⟨0, 0, true, 0⟩) := by
  have h12 : tick^[1200] ⟨ci, bi, true, 0⟩ = ⟨ci, bi, true, 100⟩ := by
    rw [tick_iterate ci bi h 1200 le_rfl]
    norm_num
  refine ⟨h12, ?_⟩
  rw [show (1201 : Nat) = 1200 + 1 from rfl, Function.iterate_succ_apply', h12]
  simp only [tick]
  norm_num

/-- Witness for C2 at the very first beat. -/
theorem c2_witness :
    validPos 0 0 ∧
    tick^[1200] ⟨0, 0, true, 0⟩ = ⟨0, 0, true, 100⟩ ∧
    tick^[1201] ⟨0, 0, true, 0⟩ = ⟨0, 1, true, 0⟩ := by
  refine ⟨by decide, (c2_single_advance 0 0 (by decide)).1, ?_⟩
  rw [(c2_single_advance 0 0 (by decide)).2]
  rfl

/-- The inductive invariant behind C4: valid indices, and progress is an
exact multiple of the per-tick increment `1/12`, at most 100. -/
def ProgressInv (s : PlaybackState) : Prop :=
  validState s ∧ ∃ k : Nat, k ≤ 1200 ∧ s.progress = (k : ℚ) / 12

lemma zero_div12 : (0 : ℚ) = ((0 : ℕ) : ℚ) / 12 := by norm_num

lemma goNext_progress (s : PlaybackState) : (goNext s).progress = 0 := by
  unfold goNext; split_ifs <;> rfl

lemma goPrev_progress (s : PlaybackState) : (goPrev s).progress = 0 := by
  unfold goPrev; split_ifs <;> rfl

/-- Counterexample for C4: after exactly 1200 ticks from the initial
state the committed, observable playback state has `progress ≥ 100`
while the beat index has not yet advanced — the advance is deferred to
the next tick, so it is not atomic with progress reaching 100. -/
theorem c4_counterexample :
    100 ≤ (tick^[1200] initialState).progress ∧
    (tick^[1200] initialState).currentChapterIndex = 0 ∧
    (tick^[1200] initialState).currentBeatIndex = 0 := by
  have h : tick^[1200] initialState = ⟨0, 0, true, 100⟩ := by
    rw [show initialState = ⟨0, 0, true, 0⟩ from rfl,
      tick_iterate 0 0 (by decide) 1200 le_rfl]
    norm_num
  rw [h]
  norm_num

/-- C4 (amended): `progress` always stays within `[0, 100]` (it is an
exact multiple of `1/12` bounded by 100, and this is preserved by every
playback operation); but the beat advance is deferred by one tick — the
state with progress 100 and the old indices is observable, and on the
following tick the advance and the reset of progress to 0 happen
together. -/
theorem c4_progress_bounds :
    ProgressInv initialState ∧
    (∀ s t, ProgressInv s → PStep s t → ProgressInv t) ∧
    (∀ s, ProgressInv s → 0 ≤ s.progress ∧ s.progress ≤ 100) ∧
    (∀ s, ProgressInv s → s.isPlaying = true → 100 ≤ s.progress →
      (tick s).progress = 0 ∧
      ((tick s).currentChapterIndex, (tick s).currentBeatIndex) ≠
        (s.currentChapterIndex, s.currentBeatIndex)) := by
  have h8 : ALL_CHAPTERS.length = 8 := rfl
  have hv0 : validState (⟨0, 0, true, 0⟩ : PlaybackState) := by decide
  refine ⟨⟨by decide, 0, by norm_num, zero_div12⟩, ?_, ?_, ?_⟩
  · rintro s t ⟨hv, k, hk, hp⟩
    rintro (rfl | rfl | rfl | rfl | rfl | ⟨i, hi, rfl⟩ | ⟨ci, bi, hvv, rfl⟩ |
      ⟨bi, hb, rfl⟩)
    · refine ⟨tick_valid hv, ?_⟩
      unfold tick
      split_ifs with hA hB hC hD
      · exact ⟨k, hk, hp⟩
      · exact ⟨0, by norm_num, by norm_num⟩
      · exact ⟨0, by norm_num, by norm_num⟩
      · exact ⟨0, by norm_num, by norm_num⟩
      · have hk' : k < 1200 := by
          rcases lt_or_eq_of_le hk with h | h
          · exact h
          · exact absurd (by rw [hp, h]; norm_num : (100:ℚ) ≤ s.progress) hB
        refine ⟨k + 1, by omega, ?_⟩
        show s.progress + 50 / (beatAt s.currentChapterIndex s.currentBeatIndex).duration * 100
          = ((k + 1 : ℕ) : ℚ) / 12
        rw [duration_all _ hv.1 _ hv.2, hp]
        push_cast
        ring
    · exact ⟨goNext_valid hv, 0, by norm_num, by rw [goNext_progress]; norm_num⟩
    · exact ⟨goPrev_valid hv, 0, by norm_num, by rw [goPrev_progress]; norm_num⟩
    · exact ⟨hv0, 0, by norm_num, zero_div12⟩
    · exact ⟨hv, k, hk, hp⟩
    · exact ⟨⟨hi, chapter_nonempty i hi⟩, 0, by norm_num, zero_div12⟩
    · exact ⟨hvv, 0, by norm_num, zero_div12⟩
    · exact ⟨⟨hv.1, hb⟩, 0, by norm_num, zero_div12⟩
  · rintro s ⟨hv, k, hk, hp⟩
    have hkq : (k : ℚ) ≤ 1200 := by exact_mod_cast hk
    rw [hp]
    constructor
    · positivity
    · rw [div_le_iff₀ (by norm_num)]
      linarith
  · rintro s ⟨hv, k, hk, hp⟩ hpl hge
    obtain ⟨h1, h2⟩ := hv
    unfold tick
    split_ifs with hA hB hC
    · rw [hpl] at hA
      exact absurd hA (by simp)
    · refine ⟨rfl, ?_⟩
      show (s.currentChapterIndex, s.currentBeatIndex + 1) ≠
        (s.currentChapterIndex, s.currentBeatIndex)
      simp only [ne_eq, Prod.mk.injEq, not_and]
      intro _
      omega
    · refine ⟨rfl, ?_⟩
      show (s.currentChapterIndex + 1, (0 : ℕ)) ≠
        (s.currentChapterIndex, s.currentBeatIndex)
      simp only [ne_eq, Prod.mk.injEq, not_and]
      intro hc
      omega
    · refine ⟨rfl, ?_⟩
      show ((0 : ℕ), (0 : ℕ)) ≠ (s.currentChapterIndex, s.currentBeatIndex)
      simp only [ne_eq, Prod.mk.injEq, not_and]
      intro hc
      omega

/-- Witness for C4: the progress bound holds one tick after the initial
state, and a tick at a saturated state resets progress together with the
advance. -/
theorem c4_witness :
    (0 ≤ (tick initialState).progress ∧ (tick initialState).progress ≤ 100) ∧
    (tick ⟨7, 4, true, 100⟩).progress = 0 :=
  ⟨c4_progress_bounds.2.2.1 (tick initialState)
     (c4_progress_bounds.2.1 initialState (tick initialState)
       c4_progress_bounds.1 (Or.inl rfl)),
   (c4_progress_bounds.2.2.2 ⟨7, 4, true, 100⟩
     ⟨by decide, 1200, by norm_num, by show (100 : ℚ) = ((1200 : ℕ) : ℚ) / 12; norm_num⟩
     rfl le_rfl).1⟩

/-! ## Camera claims -/

/-- The framing point, written from the specification's words: with no
tracked character it is the desired look-at point; with a (smoothed)
character position it is the combination weighted 60% toward the target
and 40% toward the character, with the Y coordinate clamped to a minimum
of 0.8. -/
def specFramingPoint (smoothedChar : Option Vec3) (desired : Vec3) : Vec3 :=
  match smoothedChar with
  | none => desired
  | some c =>
    Vec3.mk ((4/10) * c.x + (6/10) * desired.x)
      (max ((4/10) * c.y + (6/10) * desired.y) (8/10))
      ((4/10) * c.z + (6/10) * desired.z)

/-- The blend step, written from the specification's words:
`currentLookAt += (framingPoint - currentLookAt) * speed`. -/
def specBlend (current framing : Vec3) (speed : ℚ) : Vec3 :=
  Vec3.mk (current.x + (framing.x - current.x) * speed)
    (current.y + (framing.y - current.y) * speed)
    (current.z + (framing.z - current.z) * speed)

lemma frameStep_currentTarget_none (speed : ℚ) (st : CamState) :
    (frameStep speed none st).currentTarget =
      st.currentTarget.lerp st.desiredTarget
        (if st.isTransitioning then speed else speed * (3/10)) := by
  simp only [frameStep]
  split_ifs <;> rfl

lemma frameStep_currentTarget_some (speed : ℚ) (v : Vec3) (st : CamState) :
    (frameStep speed (some v) st).currentTarget =
      st.currentTarget.lerp
        (Vec3.mk
          (Vec3.lerp (st.currentWizardPos.lerp v (speed * 2)) st.desiredTarget (6/10)).x
          (max (Vec3.lerp (st.currentWizardPos.lerp v (speed * 2))
            st.desiredTarget (6/10)).y (8/10))
          (Vec3.lerp (st.currentWizardPos.lerp v (speed * 2)) st.desiredTarget (6/10)).z)
        (if st.isTransitioning then speed else speed * (3/10)) := by
  simp only [frameStep]
  split_ifs <;> rfl

lemma blend_max_congr {cy e₁ e₂ s s' c : ℚ} (he : e₁ = e₂) (hs : s = s') :
    cy + (max e₁ c - cy) * s = cy + (max e₂ c - cy) * s' := by
  rw [he, hs]

/-- C7: the engine's per-frame update of the look-at point coincides with
the specification's description — framing point `desiredLookAt` when no
character is tracked, otherwise the 60/40 blend from the smoothed
character position with the Y floor of 0.8; and the look-at point moves
toward it by the full `transitionSpeed` while transitioning and by 30% of
it once settled. -/
theorem c7_frameStep_matches_spec (speed : ℚ) (v : Vec3) (st : CamState) :
    ((frameStep speed none st).currentTarget =
      specBlend st.currentTarget (specFramingPoint none st.desiredTarget)
        (if st.isTransitioning then speed else (3/10) * speed)) ∧
    ((frameStep speed (some v) st).currentTarget =
      specBlend st.currentTarget
        (specFramingPoint (some (st.currentWizardPos.lerp v (speed * 2)))
          st.desiredTarget)
        (if st.isTransitioning then speed else (3/10) * speed)) := by
  constructor
  · rw [frameStep_currentTarget_none]
    simp only [specBlend, specFramingPoint, Vec3.lerp, Vec3.mk.injEq]
    split_ifs <;> exact ⟨by ring, by ring, by ring⟩
  · rw [frameStep_currentTarget_some]
    simp only [specBlend, specFramingPoint, Vec3.lerp, Vec3.mk.injEq]
    split_ifs <;> exact ⟨by ring, blend_max_congr (by ring) (by ring), by ring⟩

lemma distSq_lerp (a b : Vec3) (t : ℚ) :
    distSq (a.lerp b t) b = (1 - t) ^ 2 * distSq a b := by
  simp only [distSq, Vec3.lerp]
  ring

lemma distSq_nonneg (a b : Vec3) : 0 ≤ distSq a b := by
  unfold distSq
  positivity

/-- A tick of the engine with no tracked wizard while a transition is
active: the look-at point lerps at full speed toward the (unchanged)
desired target, and the transition completes — bumping the fire count —
exactly when the post-lerp squared distance drops below `(1/10)^2`. -/
lemma frameStep_none_true (speed : ℚ) (st : CamState)
    (h : st.isTransitioning = true) :
    frameStep speed none st =
      if distSq (st.currentTarget.lerp st.desiredTarget speed) st.desiredTarget
          < (1/10) ^ 2 then
        ⟨st.currentTarget.lerp st.desiredTarget speed, st.desiredTarget,
          st.currentWizardPos, false, st.fired + 1⟩
      else
        ⟨st.currentTarget.lerp st.desiredTarget speed, st.desiredTarget,
          st.currentWizardPos, true, st.fired⟩ := by
  simp only [frameStep, h, if_true, true_and]

/-- A tick of the engine with no tracked wizard after the transition has
settled: only the look-at point moves (at 30% speed). -/
lemma frameStep_none_false (speed : ℚ) (st : CamState)
    (h : st.isTransitioning = false) :
    frameStep speed none st =
      { st with currentTarget :=
          st.currentTarget.lerp st.desiredTarget (speed * (3/10)) } := by
  simp [frameStep, h]

/-- The run of the no-wizard engine from a fresh transition: either the
transition is still active with no firing yet and the squared distance
shrunk geometrically, or it has completed and fired exactly once. -/
lemma camRun_invariant (speed : ℚ) (st0 : CamState)
    (h0 : st0.isTransitioning = true) (hf : st0.fired = 0) :
    ∀ n : Nat,
      (((frameStep speed none)^[n] st0).desiredTarget = st0.desiredTarget) ∧
      ((((frameStep speed none)^[n] st0).isTransitioning = true ∧
        ((frameStep speed none)^[n] st0).fired = 0 ∧
        distSq ((frameStep speed none)^[n] st0).currentTarget st0.desiredTarget
          = ((1 - speed) ^ 2) ^ n * distSq st0.currentTarget st0.desiredTarget) ∨
       (((frameStep speed none)^[n] st0).isTransitioning = false ∧
        ((frameStep speed none)^[n] st0).fired = 1)) := by
  intro n
  induction n with
  | zero =>
    refine ⟨rfl, Or.inl ⟨h0, hf, ?_⟩⟩
    rw [Function.iterate_zero_apply, pow_zero, one_mul]
  | succ n ih =>
    obtain ⟨hd, hcase⟩ := ih
    rw [Function.iterate_succ_apply']
    rcases hcase with ⟨ht, hf0, hdist⟩ | ⟨ht, hf1⟩
    · rw [frameStep_none_true speed _ ht]
      split_ifs with hc
      · exact ⟨hd, Or.inr ⟨rfl, by rw [hf0]⟩⟩
      · refine ⟨hd, Or.inl ⟨rfl, hf0, ?_⟩⟩
        show distSq (Vec3.lerp _ _ speed) st0.desiredTarget = _
        rw [hd, distSq_lerp, hdist, pow_succ]
        ring
    · rw [frameStep_none_false speed _ ht]
      exact ⟨hd, Or.inr ⟨ht, hf1⟩⟩

/-- C8: with no tracked character, a transition completes — clearing
`isTransitioning` and firing `onTransitionComplete` — exactly when the
post-lerp distance to the framing point drops below 0.1; once settled,
the callback never fires again; and from a fresh transition the callback
fires exactly once: the count never exceeds 1, and after sufficiently
many ticks it equals 1 forever. -/
theorem c8_transition_fires_once (speed : ℚ) (st0 : CamState)
    (hs0 : 0 < speed) (hs1 : speed < 1)
    (h0 : st0.isTransitioning = true) (hf : st0.fired = 0) :
    (∀ st : CamState, st.isTransitioning = true →
      (((frameStep speed none st).isTransitioning = false ∧
        (frameStep speed none st).fired = st.fired + 1) ↔
       distSq (st.currentTarget.lerp st.desiredTarget speed) st.desiredTarget
         < (1/10) ^ 2)) ∧
    (∀ st : CamState, st.isTransitioning = false →
      (frameStep speed none st).isTransitioning = false ∧
      (frameStep speed none st).fired = st.fired) ∧
    (∀ n : Nat, ((frameStep speed none)^[n] st0).fired ≤ 1) ∧
    (∃ N, ∀ m, N ≤ m → ((frameStep speed none)^[m] st0).fired = 1) := by
  have hq0 : (0 : ℚ) ≤ (1 - speed) ^ 2 := sq_nonneg _
  have hq1 : (1 - speed) ^ 2 < 1 :=
    pow_lt_one₀ (by linarith) (by linarith) (by norm_num)
  refine ⟨?_, ?_, ?_, ?_⟩
  · intro st ht
    rw [frameStep_none_true speed st ht]
    constructor
    · intro hcl
      by_contra hc
      rw [if_neg hc] at hcl
      exact absurd hcl.1 (by simp)
    · intro hc
      rw [if_pos hc]
      exact ⟨rfl, rfl⟩
  · intro st ht
    rw [frameStep_none_false speed st ht]
    exact ⟨ht, rfl⟩
  · intro n
    rcases (camRun_invariant speed st0 h0 hf n).2 with ⟨_, hf0, _⟩ | ⟨_, hf1⟩
    · rw [hf0]; omega
    · rw [hf1]
  · set q : ℚ := (1 - speed) ^ 2 with hq
    set D : ℚ := distSq st0.currentTarget st0.desiredTarget with hD
    have hD0 : 0 ≤ D := distSq_nonneg _ _
    obtain ⟨M, hM⟩ : ∃ M : Nat, q ^ M * D < 1 / 100 := by
      rcases eq_or_lt_of_le hD0 with hD0' | hD0'
      · exact ⟨0, by rw [← hD0', mul_zero]; norm_num⟩
      · obtain ⟨M, hM⟩ := exists_pow_lt_of_lt_one
          (show (0 : ℚ) < (1 / 100) / D by positivity) hq1
        refine ⟨M, ?_⟩
        rw [lt_div_iff₀ hD0'] at hM
        exact hM
    refine ⟨M + 1, ?_⟩
    intro m hm
    obtain ⟨m', rfl⟩ : ∃ m', m = m' + 1 := ⟨m - 1, by omega⟩
    have hdrop : q ^ (m' + 1) * D < 1 / 100 := by
      have hpow : q ^ (m' + 1) ≤ q ^ M :=
        pow_le_pow_of_le_one hq0 hq1.le (by omega)
      calc q ^ (m' + 1) * D ≤ q ^ M * D := by
            exact mul_le_mul_of_nonneg_right hpow hD0
        _ < 1 / 100 := hM
    rw [Function.iterate_succ_apply']
    rcases (camRun_invariant speed st0 h0 hf m').2 with ⟨ht, hf0, hdist⟩ | ⟨ht, hf1⟩
    · have hd := (camRun_invariant speed st0 h0 hf m').1
      rw [frameStep_none_true speed _ ht, if_pos ?_]
      · show _ + 1 = 1
        rw [hf0]
      · show distSq (Vec3.lerp _ _ speed) _ < (1/10) ^ 2
        rw [hd, distSq_lerp, hdist]
        calc (1 - speed) ^ 2 * (((1 - speed) ^ 2) ^ m' * D)
            = q ^ (m' + 1) * D := by rw [hq]; ring
          _ < 1 / 100 := hdrop
          _ ≤ (1/10) ^ 2 := by norm_num
    · rw [frameStep_none_false speed _ ht]
      show ((frameStep speed none)^[m'] st0).fired = 1
      exact hf1

/-- Witness for C8 at the reference transition speed 0.025 and the
mount-time look-at state targeting the monitor center. -/
theorem c8_witness :
    ((frameStep (1/40) none)^[5]
      (⟨⟨0, 1, 0⟩, ⟨0, 11/10, -1/2⟩, ⟨0, 0, 0⟩, true, 0⟩ : CamState)).fired ≤ 1 :=
  (c8_transition_fires_once (1/40)
    ⟨⟨0, 1, 0⟩, ⟨0, 11/10, -1/2⟩, ⟨0, 0, 0⟩, true, 0⟩
    (by norm_num) (by norm_num) rfl rfl).2.2.1 5

end CcHub
